import Mathlib

/-!
Verification development for the `learning-rust-web-scraper` repository.

Shallow embedding of the crawl-and-extract pipeline:
* `url_to_html_file_name` (src/scrapers/mod.rs) — page naming,
* `ClimaticoScraper::save_page_sources` (src/scrapers/climatico.rs) — crawl loop,
* `ClimaticoScraper::extract_ac_product` (src/scrapers/climatico.rs) — extraction,
* `ClimaticoScraper::ac_product_to_product_template` (src/scrapers/climatico.rs) —
  export-record mapping,
with the data model from src/scrapers/mod.rs (`ACProduct`, `Currency`) and
src/model.rs (the export-record schema).
-/

/-- Outcome of a Rust function call: `Ok`, `Err`, or a panic
(`expect`/`unwrap`/`panic!` in the source aborts instead of returning). -/
inductive FnResult (ε α : Type) where
  | ok (a : α)
  | err (e : ε)
  | panicked (msg : String)
deriving DecidableEq, Repr

/-- Currency sign (src/scrapers/mod.rs, `data::Currency`). -/
inductive Currency where
  | RON
  | USD
  | EUR
deriving DecidableEq, Repr

/-- AC (air conditioning) product (src/scrapers/mod.rs, `data::ACProduct`).
The source's `price : f32` is only ever set to the constant `0.0` and never read;
it is embedded as a rational constant so the record stays decidable. -/
structure ACProduct where
  name : String
  manufacturer : String
  product_code : String
  product_url : String
  reseller_product_page_url : String
  manufacturer_product_page_url : String
  listing_image_path : String
  listing_image_url : String
  price : Rat
  currency : Currency
  has_wifi_connection : Bool
  mains_voltage : String
  internal_unit_length : String
  heating_noise_level : String
  cooling_noise_level : String
  heating_energy_class : String
  cooling_energy_class : String
  heating_btu_capacity : String
  cooling_btu_capacity : String
  category_drill_down : List String
deriving DecidableEq, Repr

/-! ## PageNamer: `url_to_html_file_name` (src/scrapers/mod.rs lines 9-37) -/

/-- Origin of a URL as exposed by the `url` crate: either opaque or a
(scheme, host, port) tuple. -/
inductive UrlOrigin where
  | Opaque
  | Tuple (scheme : String) (host : String) (port : Nat)
deriving DecidableEq, Repr

/-- The observable pieces of a parsed `url::Url` that
`url_to_html_file_name` consults: `cannot_be_a_base()`, `origin()`,
`path()`, `query()`; the fragment is carried to show it is ignored. -/
structure UrlModel where
  cannotBeABase : Bool
  origin : UrlOrigin
  path : String
  query : Option String
  fragment : Option String
deriving DecidableEq, Repr

/-- Rust `str::replace` on character lists: replace every non-overlapping
occurrence of `pattern` left-to-right.  The fuel argument (the length of the
scanned list at the first call) makes the recursion structural; each step
consumes at least one character, so the fuel never runs out on the way. -/
def replaceAux (pattern repl : List Char) : Nat → List Char → List Char
  | _, [] => []
  | 0, l => l
  | Nat.succ fuel, c :: rest =>
    if !pattern.isEmpty && pattern.isPrefixOf (c :: rest) then
      repl ++ replaceAux pattern repl fuel (rest.drop (pattern.length - 1))
    else
      c :: replaceAux pattern repl fuel rest

/-- Rust `str::replace(pattern, repl)`: every use site in this repository
passes a non-empty single-character pattern. -/
def rustReplace (s pattern repl : String) : String :=
  ⟨replaceAux pattern.data repl.data s.data.length s.data⟩

/-- Embedding of `url_to_html_file_name` (src/scrapers/mod.rs lines 9-37):
reject cannot-be-a-base URLs, reject undecomposable (opaque) origins, otherwise build
`scheme__host__port_path.html` (path separators escaped), with the query
(`=` and `&` escaped) spliced in before the suffix when present. -/
def url_to_html_file_name (url : UrlModel) : Except String String :=
  if url.cannotBeABase then
    .error "Cannot parse this URL. It cannot be a base URL."
  else
    match url.origin with
    | .Opaque =>
        .error "Cannot parse this URL into scheme, host and port. The origin is opaque."
    | .Tuple scheme host port =>
        let path := rustReplace url.path "/" "_slash_"
        let query_params := match url.query with
          | none => none
          | some q => some (rustReplace (rustReplace q "=" "_eq_") "&" "_")
        match query_params with
        | none =>
            .ok (scheme ++ "__" ++ host ++ "__" ++ toString port ++ "_" ++ path ++ ".html")
        | some qparms =>
            .ok (scheme ++ "__" ++ host ++ "__" ++ toString port ++ "_" ++ path ++ "__"
                  ++ qparms ++ ".html")

/-! ## Helper lemmas on strings -/

/-- `a` occurs verbatim inside `b`. -/
def occursWithin (a b : String) : Prop := ∃ s t, b = s ++ (a ++ t)

theorem occursWithin_here (a t : String) : occursWithin a (a ++ t) :=
  ⟨"", t, (String.empty_append (a ++ t)).symm⟩

theorem occursWithin_skip (s : String) {a b : String} (h : occursWithin a b) :
    occursWithin a (s ++ b) := by
  obtain ⟨u, v, huv⟩ := h
  exact ⟨s ++ u, v, by rw [huv, String.append_assoc]⟩

/-! ## ProductExtractor: document model

`extract_ac_product` consults each matched product item node through three
first-match-or-none queries (`find(...).take(1).next()`): the product image,
the product item link, and the feature table body; a node found by a query
is consulted only for its attributes (`attr`) or its descendant text
(`text()`), and a feature-table body only through its `tr` children's first
and last child nodes.  The embedding records exactly those observations. -/

/-- A child node of a feature-table row, observed only through `text()`
(the concatenated descendant text of the node). -/
structure ChildNode where
  text : String
deriving DecidableEq, Repr

/-- A `tr` element of the feature table body, observed through
`first_child()` / `last_child()` over its child-node list. -/
structure TrNode where
  children : List ChildNode
deriving DecidableEq, Repr

/-- One product item node (an `li` matched by `find_product_nodes`):
the attribute lists of the first matching image and product-item-link
elements (when present) and the rows of the first matching feature-table
body (when present). -/
structure ProductNode where
  img : Option (List (String × String))
  link : Option (List (String × String))
  featureTableBody : Option (List TrNode)
deriving DecidableEq, Repr

/-- A parsed capture document, observed through `find_product_nodes`:
its matched product item nodes in document order. -/
structure HtmlDocument where
  productNodes : List ProductNode
deriving DecidableEq, Repr

/-- Rust `str::trim`: strip whitespace from both ends (the names and codes
this repository trims contain at most ASCII whitespace, where the Rust and
Lean whitespace predicates agree). -/
def rustTrim (s : String) : String :=
  ⟨((s.data.dropWhile Char.isWhitespace).reverse.dropWhile Char.isWhitespace).reverse⟩

/-- Rust `str::starts_with(c)` with a `char` pattern: the first character
of `s` equals `c` (false on the empty string). -/
def rustStartsWithChar (s : String) (c : Char) : Bool :=
  match s.data with
  | [] => false
  | c0 :: _ => c0 == c

/-- `attr(name)` on an element: the first attribute with that name. -/
def attrOf (attrs : List (String × String)) (name : String) : Option String :=
  (attrs.find? (fun kv => kv.fst == name)).map Prod.snd

/-- `tr.first_child().map_or("", |n| n.text())`
(src/scrapers/climatico.rs lines 316, 319-320). -/
def rowLabel (tr : TrNode) : String :=
  match tr.children.head? with
  | none => ""
  | some n => n.text

/-- `tr.last_child().map_or("", |n| n.text())`
(src/scrapers/climatico.rs lines 317, 322-323). -/
def rowValue (tr : TrNode) : String :=
  match tr.children.getLast? with
  | none => ""
  | some n => n.text

/-- The freshly initialised `ACProduct` of src/scrapers/climatico.rs
lines 243-264: every text field empty, price 0.0 RON, no WiFi, no
category drill-down. -/
def emptyACProduct : ACProduct where
  name := ""
  manufacturer := ""
  product_code := ""
  product_url := ""
  reseller_product_page_url := ""
  manufacturer_product_page_url := ""
  listing_image_path := ""
  listing_image_url := ""
  price := 0
  currency := .RON
  has_wifi_connection := false
  mains_voltage := ""
  internal_unit_length := ""
  heating_noise_level := ""
  cooling_noise_level := ""
  heating_energy_class := ""
  cooling_energy_class := ""
  heating_btu_capacity := ""
  cooling_btu_capacity := ""
  category_drill_down := []

/-- The label-keyed dispatch of src/scrapers/climatico.rs lines 327-349:
one feature-table row updates at most one field of the record; the source's
literal-pattern `match` on the label string is an equality chain.  The WiFi
field is derived (`value.starts_with('D')`), every other matched field
receives the value verbatim; unrecognized labels leave the record unchanged. -/
def processRow (p : ACProduct) (tr : TrNode) : ACProduct :=
  let label := rowLabel tr
  let value := rowValue tr
  if label = "Cod produs:" then { p with product_code := value }
  else if label = "Capacitate racire:" then { p with cooling_btu_capacity := value }
  else if label = "Capacitate incalzire:" then { p with heating_btu_capacity := value }
  else if label = "Clasa energetica racire:" then { p with cooling_energy_class := value }
  else if label = "Clasa energetica incalzire:" then { p with heating_energy_class := value }
  else if label = "Tensiune alimentare:" then { p with mains_voltage := value }
  else if label = "Nivel de zgomot racire:" then { p with cooling_noise_level := value }
  else if label = "Nivel de zgomot incalzire:" then { p with heating_noise_level := value }
  else if label = "Lungime unitate interna:" then { p with internal_unit_length := value }
  else if label = "Conexiune Wi-Fi:" then
    { p with has_wifi_connection := rustStartsWithChar value 'D' }
  else p

/-- Per-product extraction (src/scrapers/climatico.rs lines 240-353):
start from the empty record; copy the image's `data-amsrc` and `alt`
attributes, the link's `href`, then fold the feature-table rows through
`processRow`.  Every query is first-match-or-none; a missing node or
attribute leaves the field at its empty default. -/
def extractProduct (product : ProductNode) : ACProduct :=
  let ac0 := emptyACProduct
  let ac1 :=
    match product.img with
    | none => ac0
    | some attrs =>
        let a1 := match attrOf attrs "data-amsrc" with
          | some a => { ac0 with listing_image_url := a }
          | none => ac0
        match attrOf attrs "alt" with
        | some a => { a1 with name := a }
        | none => a1
  let ac2 :=
    match product.link with
    | none => ac1
    | some attrs =>
        match attrOf attrs "href" with
        | some a => { ac1 with product_url := a }
        | none => ac1
  match product.featureTableBody with
  | none => ac2
  | some rows => rows.foldl processRow ac2

/-! ## TemplateMapper: export schema and `ac_product_to_product_template`

The export schema (src/model.rs, the product-catalog import struct used as
`ProductTemplate` at the construction site in src/scrapers/climatico.rs
lines 375-413): a fixed wide set of optional string columns, every field
defaulting to `none`. -/

/-- The export-record schema (src/model.rs): all-optional string columns,
`Default` sets every field to `None`. -/
structure ProductTemplate where
  handle : Option String := none
  title : Option String := none
  body_html : Option String := none
  vendor : Option String := none
  type : Option String := none
  tags : Option String := none
  published : Option String := none
  option1_name : Option String := none
  option1_value : Option String := none
  option2_name : Option String := none
  option2_value : Option String := none
  option3_name : Option String := none
  option3_value : Option String := none
  variant_sku : Option String := none
  variant_grams : Option String := none
  variant_inventory_tracker : Option String := none
  variant_inventory_qty : Option String := none
  variant_inventory_policy : Option String := none
  variant_fulfillment_service : Option String := none
  variant_price : Option String := none
  variant_compare_at_price : Option String := none
  variant_requires_shipping : Option String := none
  variant_taxable : Option String := none
  variant_barcode : Option String := none
  image_src : Option String := none
  image_position : Option String := none
  image_alt_text : Option String := none
  gift_card : Option String := none
  seo_title : Option String := none
  seo_description : Option String := none
  google_shopping_google_product_category : Option String := none
  google_shopping_gender : Option String := none
  google_shopping_age_group : Option String := none
  google_shopping_mpn : Option String := none
  google_shopping_ad_words_grouping : Option String := none
  google_shopping_ad_words_labels : Option String := none
  google_shopping_condition : Option String := none
  google_shopping_custom_product : Option String := none
  google_shopping_custom_label_0 : Option String := none
  google_shopping_custom_label_1 : Option String := none
  google_shopping_custom_label_2 : Option String := none
  google_shopping_custom_label_3 : Option String := none
  google_shopping_custom_label_4 : Option String := none
  variant_image : Option String := none
  variant_weight_unit : Option String := none
  variant_tax_code : Option String := none
  cost_per_item : Option String := none
deriving DecidableEq, Repr

/-- Literal text of the generated HTML description up to the first format
argument (src/scrapers/climatico.rs line 399; the doubled braces of the Rust
format string are single literal braces in the output). -/
def bodyHtmlSeg0 : String :=
  "<style type=\"text/css\"> .pd-table \x7b border-collapse: collapse; border-spacing: 0; \x7d .pd-table td \x7b padding: 10px 5px; border-style: solid; border-width: 0px; overflow: hidden; word-break: normal; border-top-width: 1px; border-bottom-width: 1px; border-color: black; \x7d .pd-table th \x7b padding: 10px 5px; border-style: solid; border-width: 0px; overflow: hidden; word-break: normal; border-top-width: 1px; border-bottom-width: 1px; border-color: black; \x7d .pd-table .pd-table-td \x7b text-align: left; vertical-align: middle \x7d </style> <table class=\"pd-table\"> <tr> <td class=\"pd-table-td\">Capacitate racire</td> <td class=\"pd-table-td\">"

def bodyHtmlSeg1 : String :=
  "</td> </tr> <tr> <td class=\"pd-table-td\">Capacitate incalzire</td> <td class=\"pd-table-td\">"

def bodyHtmlSeg2 : String :=
  "</td> </tr> <tr> <td class=\"pd-table-td\">Nivel zgomot racire</td> <td class=\"pd-table-td\">"

def bodyHtmlSeg3 : String :=
  "</td> </tr> <tr> <td class=\"pd-table-td\">Nivel zgomot incalzire</td> <td class=\"pd-table-td\">"

def bodyHtmlSeg4 : String :=
  "</td> </tr> <tr> <td class=\"pd-table-td\">Clasa energetica racire</td> <td class=\"pd-table-td\">"

def bodyHtmlSeg5 : String :=
  "</td> </tr> <tr> <td class=\"pd-table-td\">Clasa energetica incalzire</td> <td class=\"pd-table-td\">"

def bodyHtmlSeg6 : String :=
  "</td> </tr> <tr> <td class=\"pd-table-td\">Lungime unitate interna</td> <td class=\"pd-table-td\">"

def bodyHtmlSeg7 : String :=
  "</td> </tr> <tr> <td class=\"pd-table-td\">Tensiune alimentare</td> <td class=\"pd-table-td\">"

def bodyHtmlSeg8 : String :=
  "</td> </tr> <tr> <td class=\"pd-table-td\">WiFi</td> <td class=\"pd-table-td\">"

def bodyHtmlSeg9 : String :=
  "</td> </tr> <tr> <td class=\"pd-table-td\">Categorie</td> <td class=\"pd-table-td\">"

def bodyHtmlSeg10 : String :=
  "</td> </tr> </table>"

/-- The generated HTML description (src/scrapers/climatico.rs lines 398-411):
the fixed table template with the six capacity/noise/class attributes, the
unit length, the mains voltage, a Da/Nu rendering of the WiFi flag and the
category drill-down joined by `" > "` spliced in, in the source's argument
order. -/
def bodyHtml (p : ACProduct) : String :=
  bodyHtmlSeg0 ++ (p.cooling_btu_capacity ++ (bodyHtmlSeg1 ++ (p.heating_btu_capacity
    ++ (bodyHtmlSeg2 ++ (p.cooling_noise_level ++ (bodyHtmlSeg3 ++ (p.heating_noise_level
    ++ (bodyHtmlSeg4 ++ (p.cooling_energy_class ++ (bodyHtmlSeg5 ++ (p.heating_energy_class
    ++ (bodyHtmlSeg6 ++ (p.internal_unit_length ++ (bodyHtmlSeg7 ++ (p.mains_voltage
    ++ (bodyHtmlSeg8 ++ ((if p.has_wifi_connection then "Da" else "Nu")
    ++ (bodyHtmlSeg9 ++ (String.intercalate " > " p.category_drill_down
    ++ bodyHtmlSeg10)))))))))))))))))))

/-- The `ProductTemplate` literal of src/scrapers/climatico.rs lines
375-413: the populated fields, everything else left at the `Default` of
src/model.rs (`none`). -/
def buildProductTemplate (ac_product : ACProduct) : ProductTemplate where
  handle := some (rustTrim ac_product.product_code)
  title := some (rustTrim ac_product.name)
  vendor := some (rustTrim ac_product.manufacturer)
  type := some "Aer conditionat"
  tags := some "aer-conditionat, rezidential"
  published := some "TRUE"
  variant_inventory_policy := some "deny"
  variant_fulfillment_service := some "manual"
  variant_price := some "0"
  variant_requires_shipping := some "FALSE"
  variant_taxable := some "TRUE"
  gift_card := some "FALSE"
  seo_title := some (rustTrim ac_product.name)
  seo_description := some (rustTrim ac_product.name)
  google_shopping_google_product_category :=
    some "Hardware > Heating, Ventilation & Air Conditioning"
  google_shopping_mpn := some (rustTrim ac_product.product_code)
  image_src := some ac_product.listing_image_url
  google_shopping_ad_words_grouping := some "Aer conditionat"
  variant_weight_unit := some "kg"
  image_position := some "1"
  body_html := some (bodyHtml ac_product)

/-- One CSV export unit written by the template mapper: the file name under
the export root and the serialized record. -/
structure ExportUnit where
  fileName : String
  template : ProductTemplate
deriving DecidableEq, Repr

/-- Embedding of `ac_product_to_product_template` (src/scrapers/climatico.rs
lines 368-434).  Environment facts the source queries are passed in:
`isDir` is `product_info_output_path.is_dir()`, `canCreateFile` is whether
`csv::WriterBuilder::from_path` succeeds (the source `unwrap`s it — failure
panics), `serializeResult` is the outcome of `writer.serialize`, which the
source drops.  Returns the function result (the source returns `Ok(())` on
every non-panicking path; the not-a-directory branch only logs) together
with the export unit written, if any, named `product_code + ".csv"`. -/
def ac_product_to_product_template (ac_product : ACProduct) (isDir : Bool)
    (canCreateFile : Bool) (serializeResult : Except String Unit) :
    FnResult String Unit × Option ExportUnit :=
  if isDir then
    let product_template := buildProductTemplate ac_product
    if canCreateFile then
      let _ := serializeResult
      (.ok (), some ⟨ac_product.product_code ++ ".csv", product_template⟩)
    else
      (.panicked "called Result::unwrap on an Err value: csv::WriterBuilder::from_path failed", none)
  else
    (.ok (), none)

/-! ## ProductExtractor: `extract_ac_product` (src/scrapers/climatico.rs lines 198-366) -/

/-- One entry of the capture directory as `read_dir` yields it:
a non-file entry (skipped with a log), an entry whose iteration or
`File::open` fails (`entry_result?` / `File::open(...)?`), an entry whose
bytes fail `Document::from_read` (`...?`), or a successfully parsed capture. -/
inductive DirEntry where
  | nonFile
  | readErr (e : String)
  | parseErr (e : String)
  | parsed (doc : HtmlDocument)
deriving DecidableEq, Repr

/-- The per-document loop of src/scrapers/climatico.rs lines 240-360: for
each product item node build the record and hand it to
`ac_product_to_product_template` (propagating its error with `?`).  The
accumulator mirrors the `ac_products` vector: the source never pushes the
built record onto it, so it is threaded through unchanged. -/
def processNodes (canCreateFile : Bool) (serializeResult : Except String Unit)
    (acc : List ACProduct) : List ProductNode → FnResult String (List ACProduct)
  | [] => .ok acc
  | node :: rest =>
    let ac_product := extractProduct node
    match ac_product_to_product_template ac_product true canCreateFile serializeResult with
    | (.ok _, _) => processNodes canCreateFile serializeResult acc rest
    | (.err e, _) => .err e
    | (.panicked m, _) => .panicked m

/-- The directory loop of src/scrapers/climatico.rs lines 229-362:
non-file entries are skipped with a log; a failed directory-entry read or
`File::open` and a failed `Document::from_read` are propagated with `?`,
aborting the whole run; a parsed capture has its product nodes processed. -/
def processEntries (canCreateFile : Bool) (serializeResult : Except String Unit)
    (acc : List ACProduct) : List DirEntry → FnResult String (List ACProduct)
  | [] => .ok acc
  | .nonFile :: rest => processEntries canCreateFile serializeResult acc rest
  | .readErr e :: _ => .err e
  | .parseErr e :: _ => .err e
  | .parsed doc :: rest =>
    match processNodes canCreateFile serializeResult acc doc.productNodes with
    | .ok acc2 => processEntries canCreateFile serializeResult acc2 rest
    | .err e => .err e
    | .panicked m => .panicked m

/-- Embedding of `extract_ac_product` (src/scrapers/climatico.rs lines
198-366).  Environment facts passed in: whether each output path
`is_dir()`, whether the two paths are equal (`Path::eq`), the outcomes of
CSV file creation and serialization inside the template mapper, and the
capture-directory entries.  Pre-flight: reject a non-directory sources
path, a non-directory product-info path, and identical paths; then run the
directory loop starting from the empty `ac_products` vector and return it
(`Ok(ac_products)`). -/
def extract_ac_product (sourcesIsDir : Bool) (productInfoIsDir : Bool)
    (samePath : Bool) (canCreateFile : Bool) (serializeResult : Except String Unit)
    (entries : List DirEntry) : FnResult String (List ACProduct) :=
  if !sourcesIsDir then
    .err "Argument sources_out_dir_path is not a directory!"
  else if !productInfoIsDir then
    .err "Argument product_info_out_dir_path is not a directory!"
  else if samePath then
    .err "Output directories for page sources and product information cannot be the same!"
  else
    processEntries canCreateFile serializeResult [] entries

/-! ## PageCrawler: `save_page_sources` (src/scrapers/climatico.rs lines 100-174) -/

/-- The next-page probe of one crawl iteration
(`find(Locator::Css("head > link[rel=next]"))` and the href handling,
src/scrapers/climatico.rs lines 145-170): no link found (normal
termination), `attr("href")` fails with a `CmdError`, the link has no
href attribute (the source `expect`s — panic), the href does not parse as
a URL (`Url::from_str` fails), or the href parses to the next page URL. -/
inductive NextLink where
  | absent
  | attrFail (e : String)
  | hrefMissing
  | hrefUnparsable (href : String)
  | hrefTo (u : UrlModel)
deriving DecidableEq, Repr

/-- The browser-session behaviour observed during one iteration of the
crawl loop: whether `url_to_html_file_name` succeeds for the current page
URL (`namingOk`), whether `goto`/`source` fails with a `CmdError`
(`navFail`, only reached when naming succeeded since navigation happens
inside the `if let Some(file_path)` branch), and the next-page probe
result. -/
structure CrawlIter where
  namingOk : Bool
  navFail : Option String
  next : NextLink
deriving DecidableEq, Repr

/-- Embedding of the loop of `save_page_sources` (src/scrapers/climatico.rs
lines 112-173), driven by the per-iteration browser behaviour.  A naming
failure logs and skips navigation and capture but still probes for the next
page; a navigation failure propagates with `?`; an absent next link breaks
the loop (then `Ok(())`); an unparsable next href logs an error and breaks
the loop (then the same `Ok(())`); a parsed href continues.  An exhausted
script means no further iterations are observed and is reported as `Ok`. -/
def save_page_sources : List CrawlIter → FnResult String Unit
  | [] => .ok ()
  | it :: rest =>
    match (if it.namingOk then it.navFail else none) with
    | some e => .err e
    | none =>
      match it.next with
      | .absent => .ok ()
      | .attrFail e => .err e
      | .hrefMissing => .panicked "link tag with rel=next should have an href attribute!"
      | .hrefUnparsable _ => .ok ()
      | .hrefTo _ => save_page_sources rest

/-! ## Concrete fixtures used by the claim theorems -/

/-- A hierarchical listing-page URL (the crawl's start page). -/
def urlListing : UrlModel where
  cannotBeABase := false
  origin := .Tuple "https" "www.climatico.ro" 443
  path := "/aer-conditionat/vrv"
  query := none
  fragment := none

/-- A hierarchical URL with a query string and no fragment. -/
def urlWithQuery : UrlModel where
  cannotBeABase := false
  origin := .Tuple "https" "www.climatico.ro" 443
  path := "/aer-conditionat/vrv"
  query := some "p=2&dir=asc"
  fragment := none

/-- The same URL as `urlWithQuery` except for its fragment component. -/
def urlWithQueryAndFragment : UrlModel where
  cannotBeABase := false
  origin := .Tuple "https" "www.climatico.ro" 443
  path := "/aer-conditionat/vrv"
  query := some "p=2&dir=asc"
  fragment := some "reviews"

/-- A degenerate one-cell feature-table row whose single child carries the
product-code label text. -/
def oneCellRow : TrNode := ⟨[⟨"Cod produs:"⟩]⟩

/-- A product item node whose feature table consists of the degenerate
one-cell row. -/
def oneCellRowNode : ProductNode := ⟨none, none, some [oneCellRow]⟩

/-- A WiFi feature row with the affirmative value `"Da"`. -/
def wifiRowDa : TrNode := ⟨[⟨"Conexiune Wi-Fi:"⟩, ⟨"Da"⟩]⟩

/-- A WiFi feature row with the negative value `"Nu"`. -/
def wifiRowNu : TrNode := ⟨[⟨"Conexiune Wi-Fi:"⟩, ⟨"Nu"⟩]⟩

/-- A WiFi feature row with an empty value. -/
def wifiRowEmpty : TrNode := ⟨[⟨"Conexiune Wi-Fi:"⟩, ⟨""⟩]⟩

/-- A WiFi feature row with an unrelated word as its value. -/
def wifiRowUnrelated : TrNode := ⟨[⟨"Conexiune Wi-Fi:"⟩, ⟨"optional"⟩]⟩

/-- A full product item node: image, link, and a feature table with a
product-code row and capacity rows. -/
def sampleProductNode : ProductNode where
  img := some [("data-amsrc", "https://img.example/unit-a.jpg"), ("alt", "Unit A")]
  link := some [("href", "https://www.climatico.ro/unit-a")]
  featureTableBody := some
    [⟨[⟨"Cod produs:"⟩, ⟨"SKU1"⟩]⟩,
     ⟨[⟨"Capacitate racire:"⟩, ⟨"12000 BTU"⟩]⟩,
     ⟨[⟨"Capacitate incalzire:"⟩, ⟨"14000 BTU"⟩]⟩]

/-- A parsed capture containing exactly one product item node. -/
def sampleDocument : HtmlDocument := ⟨[sampleProductNode]⟩

/-- A record carrying the fixture key and name of the export test together
with distinctive capacity values. -/
def sampleRecord : ACProduct :=
  { emptyACProduct with
      product_code := "SKU1"
      name := "Unit A"
      cooling_btu_capacity := "12000 BTU"
      heating_btu_capacity := "14000 BTU" }

/-! ## Claim theorems -/

/-- Claim C6: `url_to_html_file_name` returns an error exactly when the
URL's origin cannot be decomposed into scheme/host/port (under the
url-crate invariant that a cannot-be-a-base URL has an opaque origin);
otherwise it deterministically returns the name built from scheme, host,
port, the path with `/` replaced by the `_slash_` token, and — if a query
is present — the query with `=` and `&` replaced by the `_eq_` and `_`
tokens, suffixed with `.html`; calling it twice on the same URL yields
identical output. -/
theorem c6_naming_errors_exactly_when_origin_undecomposable (u : UrlModel)
    (hinv : u.cannotBeABase = true → u.origin = UrlOrigin.Opaque) :
    ((∃ name, url_to_html_file_name u = .ok name) ↔ u.origin ≠ UrlOrigin.Opaque)
    ∧ (∀ scheme host port, u.origin = UrlOrigin.Tuple scheme host port →
        (u.query = none →
          url_to_html_file_name u =
            .ok (scheme ++ "__" ++ host ++ "__" ++ toString port ++ "_"
                  ++ rustReplace u.path "/" "_slash_" ++ ".html"))
        ∧ (∀ q, u.query = some q →
          url_to_html_file_name u =
            .ok (scheme ++ "__" ++ host ++ "__" ++ toString port ++ "_"
                  ++ rustReplace u.path "/" "_slash_" ++ "__"
                  ++ rustReplace (rustReplace q "=" "_eq_") "&" "_" ++ ".html")))
    ∧ url_to_html_file_name u = url_to_html_file_name u := by
  refine ⟨?_, ?_, rfl⟩
  · cases hb : u.cannotBeABase with
    | true =>
        have hop := hinv hb
        simp [url_to_html_file_name, hb, hop]
    | false =>
        cases ho : u.origin with
        | Opaque => simp [url_to_html_file_name, hb, ho]
        | Tuple s h p =>
            cases hq : u.query <;> simp [url_to_html_file_name, hb, ho, hq]
  · intro s h p ho
    have hb : u.cannotBeABase = false := by
      cases hbb : u.cannotBeABase with
      | false => rfl
      | true => rw [hinv hbb] at ho; exact UrlOrigin.noConfusion ho
    constructor
    · intro hq
      simp [url_to_html_file_name, hb, ho, hq]
    · intro q hq
      simp [url_to_html_file_name, hb, ho, hq]

/-- Claim C6 witness: the naming theorem instantiated at the concrete
listing-page URL, together with a direct evaluation of the produced
file name. -/
theorem c6_naming_witness :
    (urlListing.cannotBeABase = true → urlListing.origin = UrlOrigin.Opaque)
    ∧ ((∃ name, url_to_html_file_name urlListing = .ok name)
        ↔ urlListing.origin ≠ UrlOrigin.Opaque)
    ∧ url_to_html_file_name urlListing
        = .ok "https__www.climatico.ro__443__slash_aer-conditionat_slash_vrv.html" :=
  ⟨by decide,
   (c6_naming_errors_exactly_when_origin_undecomposable urlListing (by decide)).1,
   by rfl⟩

/-- Claim C9: two hierarchical URLs that differ only in their fragment
component are mapped by `url_to_html_file_name` to the same file name —
the fragment plays no part in naming, so their captures land in the same
on-disk file. -/
theorem c9_fragment_ignored_by_naming (u1 u2 : UrlModel)
    (hbase : u1.cannotBeABase = u2.cannotBeABase)
    (horigin : u1.origin = u2.origin)
    (hpath : u1.path = u2.path)
    (hquery : u1.query = u2.query) :
    url_to_html_file_name u1 = url_to_html_file_name u2 := by
  unfold url_to_html_file_name
  rw [hbase, horigin, hpath, hquery]

/-- Claim C9 witness: the fragment-insensitivity theorem applied to the
concrete query URL and its fragment-carrying variant, whose fragments
differ. -/
theorem c9_fragment_witness :
    urlWithQuery.fragment ≠ urlWithQueryAndFragment.fragment
    ∧ url_to_html_file_name urlWithQuery
        = url_to_html_file_name urlWithQueryAndFragment :=
  ⟨by decide,
   c9_fragment_ignored_by_naming urlWithQuery urlWithQueryAndFragment rfl rfl rfl rfl⟩

/-- Claim C3 counterexample: with an export root that is not a directory,
`ac_product_to_product_template` returns `Ok(())` — success — instead of
a not-a-directory error, refuting the claim at this concrete input. -/
theorem c3_not_a_directory_counterexample :
    (ac_product_to_product_template emptyACProduct false true (Except.ok ())).fst
        = FnResult.ok () :=
  rfl

/-- Claim C3 (amended): when the export root does not exist as a directory,
`ac_product_to_product_template` only logs an error and returns `Ok(())`
without writing any export unit; it never surfaces a not-a-directory error
to the caller. -/
theorem c3_not_a_directory_silently_succeeds (p : ACProduct)
    (canCreateFile : Bool) (ser : Except String Unit) :
    ac_product_to_product_template p false canCreateFile ser = (FnResult.ok (), none) :=
  rfl

/-- Claim C10: when the export root is a directory and the CSV file can be
created, `ac_product_to_product_template` returns `Ok(())` for every
serialization outcome — the result of `writer.serialize` is discarded, so
a serialization or write failure still yields success (and the written
unit is the same). -/
theorem c10_serialize_result_discarded (p : ACProduct) (ser : Except String Unit) :
    (ac_product_to_product_template p true true ser).fst = FnResult.ok ()
    ∧ ac_product_to_product_template p true true ser
        = ac_product_to_product_template p true true (Except.error "serialize failed")
    ∧ ac_product_to_product_template p true true ser
        = (FnResult.ok (), some ⟨p.product_code ++ ".csv", buildProductTemplate p⟩) :=
  ⟨rfl, rfl, rfl⟩

/-- Claim C8: a record with `product_code = "SKU1"` and `name = "Unit A"`
maps to an export unit whose title, SEO title and SEO description all equal
`"Unit A"` (the trimmed name) and whose generated HTML description contains
the cooling and heating capacity values verbatim. -/
theorem c8_export_title_seo_and_capacities (p : ACProduct)
    (_hcode : p.product_code = "SKU1") (hname : p.name = "Unit A") :
    (buildProductTemplate p).title = some "Unit A"
    ∧ (buildProductTemplate p).seo_title = some "Unit A"
    ∧ (buildProductTemplate p).seo_description = some "Unit A"
    ∧ (buildProductTemplate p).body_html = some (bodyHtml p)
    ∧ occursWithin p.cooling_btu_capacity (bodyHtml p)
    ∧ occursWithin p.heating_btu_capacity (bodyHtml p) := by
  have htrim : rustTrim "Unit A" = "Unit A" := rfl
  refine ⟨?_, ?_, ?_, rfl, ?_, ?_⟩
  · show some (rustTrim p.name) = some "Unit A"
    rw [hname, htrim]
  · show some (rustTrim p.name) = some "Unit A"
    rw [hname, htrim]
  · show some (rustTrim p.name) = some "Unit A"
    rw [hname, htrim]
  · unfold bodyHtml
    exact occursWithin_skip _ (occursWithin_here _ _)
  · unfold bodyHtml
    exact occursWithin_skip _ (occursWithin_skip _ (occursWithin_skip _
      (occursWithin_here _ _)))

/-- Claim C8 witness: the export-mapping theorem instantiated at the
concrete `"SKU1"` / `"Unit A"` record with distinctive capacity values. -/
theorem c8_export_witness :
    (sampleRecord.product_code = "SKU1" ∧ sampleRecord.name = "Unit A")
    ∧ ((buildProductTemplate sampleRecord).title = some "Unit A"
      ∧ (buildProductTemplate sampleRecord).seo_title = some "Unit A"
      ∧ (buildProductTemplate sampleRecord).seo_description = some "Unit A"
      ∧ (buildProductTemplate sampleRecord).body_html = some (bodyHtml sampleRecord)
      ∧ occursWithin sampleRecord.cooling_btu_capacity (bodyHtml sampleRecord)
      ∧ occursWithin sampleRecord.heating_btu_capacity (bodyHtml sampleRecord)) :=
  ⟨⟨rfl, rfl⟩, c8_export_title_seo_and_capacities sampleRecord rfl rfl⟩

/-- Claim C4 counterexample: a crawl whose only iteration finds a next-page
link with an unparsable href returns `Ok(())` — the `break` after the error
log falls through to the final `Ok(())` — which is the very same value
produced by normal termination (no next link), so the two outcomes are not
distinct. -/
theorem c4_unparsable_href_counterexample :
    save_page_sources [⟨true, none, NextLink.hrefUnparsable "http//:bad"⟩]
        = FnResult.ok ()
    ∧ save_page_sources [⟨true, none, NextLink.absent⟩] = FnResult.ok ()
    ∧ save_page_sources [⟨true, none, NextLink.hrefUnparsable "http//:bad"⟩]
        = save_page_sources [⟨true, none, NextLink.absent⟩] :=
  ⟨rfl, rfl, rfl⟩

/-- Claim C4 (amended): if a next-page link is present but its href cannot
be parsed as a URL, the crawl logs an error and stops visiting further
pages, yet returns `Ok(())` — the same success value as normal termination
when no next-page link exists; no distinct error value is produced. -/
theorem c4_unparsable_href_stops_with_ok (href : String) (rest : List CrawlIter) :
    save_page_sources (⟨true, none, NextLink.hrefUnparsable href⟩ :: rest)
        = FnResult.ok ()
    ∧ save_page_sources (⟨true, none, NextLink.absent⟩ :: rest) = FnResult.ok () :=
  ⟨rfl, rfl⟩

/-- Claim C5 counterexample: a feature-table row with exactly one cell
carrying the product-code label yields the label text itself — not an empty
value — as the matched field. -/
theorem c5_one_cell_row_counterexample :
    (extractProduct oneCellRowNode).product_code = "Cod produs:"
    ∧ (extractProduct oneCellRowNode).product_code ≠ "" :=
  ⟨rfl, by decide⟩

/-- Claim C5 (amended): in a feature-table row with exactly one cell the
first and last child nodes coincide, so the extracted value equals the
label's own text (the degenerate row yields the label text, not an empty
value), and extraction does not raise an error. -/
theorem c5_one_cell_row_value_is_label (p : ACProduct) (tr : TrNode)
    (c : ChildNode) (h : tr.children = [c]) :
    rowValue tr = rowLabel tr
    ∧ (rowLabel tr = "Cod produs:" → (processRow p tr).product_code = c.text) := by
  have hl : rowLabel tr = c.text := by simp [rowLabel, h]
  have hv : rowValue tr = c.text := by simp [rowValue, h]
  refine ⟨hv.trans hl.symm, fun hlab => ?_⟩
  have hrow : processRow p tr = { p with product_code := rowValue tr } := by
    simp [processRow, hlab]
  rw [hrow]
  exact hv

/-- Claim C5 witness: the amended one-cell-row theorem instantiated at the
concrete degenerate product-code row. -/
theorem c5_one_cell_row_witness :
    oneCellRow.children = [⟨"Cod produs:"⟩]
    ∧ (rowValue oneCellRow = rowLabel oneCellRow
      ∧ (rowLabel oneCellRow = "Cod produs:" →
          (processRow emptyACProduct oneCellRow).product_code = "Cod produs:")) :=
  ⟨rfl, c5_one_cell_row_value_is_label emptyACProduct oneCellRow ⟨"Cod produs:"⟩ rfl⟩

/-- Claim C7: for a feature-table row whose label is the WiFi label, the
extracted `has_wifi_connection` is exactly the result of testing whether
the row's value starts with the affirmative letter `D`; in particular it is
true exactly when the value starts with `D` and false for every other
value, including `"Nu"`, the empty string, or an unrelated word. -/
theorem c7_wifi_derived_from_affirmative_letter (p : ACProduct) (tr : TrNode)
    (h : rowLabel tr = "Conexiune Wi-Fi:") :
    (processRow p tr).has_wifi_connection = rustStartsWithChar (rowValue tr) 'D'
    ∧ ((processRow p tr).has_wifi_connection = true
        ↔ rustStartsWithChar (rowValue tr) 'D' = true) := by
  have hrow : processRow p tr
      = { p with has_wifi_connection := rustStartsWithChar (rowValue tr) 'D' } := by
    simp [processRow, h]
  rw [hrow]
  exact ⟨rfl, Iff.rfl⟩

/-- Claim C7 witness: the WiFi-derivation theorem instantiated at the `"Da"`
row, plus direct evaluations on the `"Da"`, `"Nu"`, empty and unrelated-word
rows. -/
theorem c7_wifi_witness :
    rowLabel wifiRowDa = "Conexiune Wi-Fi:"
    ∧ ((processRow emptyACProduct wifiRowDa).has_wifi_connection = true
        ↔ rustStartsWithChar (rowValue wifiRowDa) 'D' = true)
    ∧ (processRow emptyACProduct wifiRowDa).has_wifi_connection = true
    ∧ (processRow emptyACProduct wifiRowNu).has_wifi_connection = false
    ∧ (processRow emptyACProduct wifiRowEmpty).has_wifi_connection = false
    ∧ (processRow emptyACProduct wifiRowUnrelated).has_wifi_connection = false :=
  ⟨rfl,
   (c7_wifi_derived_from_affirmative_letter emptyACProduct wifiRowDa rfl).2,
   rfl, rfl, rfl, rfl⟩

/-- Claim C2 counterexample: a capture directory whose first entry fails to
parse makes the whole extraction run abort with that error — the `?` on
`Document::from_read` propagates — so the following well-formed capture is
never processed, refuting skip-and-continue at this concrete input. -/
theorem c2_parse_failure_aborts_counterexample :
    extract_ac_product true true false true (Except.ok ())
        [DirEntry.parseErr "malformed capture", DirEntry.parsed sampleDocument]
      = FnResult.err "malformed capture" :=
  rfl

/-- Claim C2 (amended): a capture file whose bytes cannot be read or parsed
into a document tree aborts the entire extraction run with that error;
the remaining entries are not visited and no records are returned. -/
theorem c2_read_or_parse_failure_aborts_run (canCreateFile : Bool)
    (ser : Except String Unit) (acc : List ACProduct) (e : String)
    (rest : List DirEntry) :
    processEntries canCreateFile ser acc (DirEntry.readErr e :: rest) = FnResult.err e
    ∧ processEntries canCreateFile ser acc (DirEntry.parseErr e :: rest) = FnResult.err e
    ∧ extract_ac_product true true false canCreateFile ser (DirEntry.parseErr e :: rest)
        = FnResult.err e :=
  ⟨rfl, rfl, rfl⟩

/-- Claim C1 (code bug): on a capture directory that passes every pre-flight
check and contains one parsable capture with exactly one matched product
item node, `extract_ac_product` still returns `Ok` of the empty sequence —
the built records are handed to the template mapper but never pushed onto
the `ac_products` vector that the function returns. -/
theorem c1_records_never_collected :
    extract_ac_product true true false true (Except.ok ())
        [DirEntry.parsed sampleDocument]
      = FnResult.ok []
    ∧ sampleDocument.productNodes.length = 1 :=
  ⟨rfl, rfl⟩
